import Mathlib

/-!
Verification of the KasPixel frontend client against its specification.

The development shallowly embeds the client-side code of the repository:

* `applyPixelUpdate` — the `pixel_update` handler of `useWebSocket`
  (`use-websocket.tsx`), which overwrites one key of the canvas-state
  object with the delta's color.
* `mergeCanvasState` — the effect in `PixelCanvas` that merges the
  WebSocket hook's `canvasState` into `localCanvasState` via object
  spread `{ ...prevState, ...canvasState }`, guarded by a non-emptiness
  check.
* `verificationPoll` — one continuation of the transaction-verification
  `setInterval` callback in `verifyTransactionWithBackend`.
* `checkBalanceStep` — one run of `checkBalance` inside
  `startWalletBalancePolling`.
* `handlePixelClick` — the canvas click handler.
* `getWalletBalance` — the balance fetch of the `useApi` hook.
* timer bookkeeping of the unmount cleanup effects.

Canvas states are modelled as functions from integer coordinate pairs to
optional color strings, matching the lookup semantics of the JavaScript
`Record<string, string>` keyed by the injective encoding `"x,y"`.
-/

namespace KasPixel

/-- A grid coordinate, the `(x, y)` pair encoded as the key `"x,y"` in the
JavaScript canvas-state objects. -/
abbrev Coord := Nat × Nat

/-- A color value, a hex string such as `"#FF0000"`. -/
abbrev Color := String

/-- A client canvas state: the `Record<string, string>` mapping coordinate
keys to colors, viewed through its lookup semantics. -/
abbrev CanvasFun := Coord → Option Color

/-- The empty canvas state (`{}`). -/
def emptyCanvas : CanvasFun := fun _ => none

/-- The `pixel_update` branch of the WebSocket `onmessage` handler in
`use-websocket.tsx`: `newState[x + "," + y] = color` on a copy of the
previous state. -/
def applyPixelUpdate (s : CanvasFun) (x y : Nat) (color : Color) : CanvasFun :=
  fun k => if k = (x, y) then some color else s k

/-- A pixel-update delta message `{x, y, color}` as broadcast by the server. -/
structure Delta where
  x : Nat
  y : Nat
  color : Color
deriving DecidableEq, Repr

/-- Merging a sequence of delta messages in their delivery order, each via
the `pixel_update` handler. -/
def applyDeltas (s : CanvasFun) (ds : List Delta) : CanvasFun :=
  ds.foldl (fun s d => applyPixelUpdate s d.x d.y d.color) s

/-- The color of the last write to cell `k` in the list `ds`, `ds` read in
chronological order of acceptance. -/
def lastWriteTo (ds : List Delta) (k : Coord) : Option Color :=
  match ds with
  | [] => none
  | d :: rest =>
    match lastWriteTo rest k with
    | some c => some c
    | none => if (d.x, d.y) = k then some d.color else none

/-- A full-state snapshot as delivered in a `canvas_state` message: the
key/value entries of the JSON object `message.data`. -/
abbrev Snapshot := List (Coord × Color)

/-- Lookup of a coordinate in a snapshot object. -/
def snapLookup (snap : Snapshot) (k : Coord) : Option Color :=
  (snap.find? (fun p => p.1 = k)).map Prod.snd

/-- The `PixelCanvas` effect that merges the WebSocket hook's `canvasState`
into `localCanvasState`: guarded by
`Object.keys(canvasState).length > 0`, and performed by the object spread
`{ ...prevState, ...canvasState }` (hook-state entries win per key, all
other local entries are kept). -/
def mergeCanvasState (localState : CanvasFun) (snap : Snapshot) : CanvasFun :=
  if snap.isEmpty then localState
  else fun k =>
    match snapLookup snap k with
    | some c => some c
    | none => localState k

/-- Modelled from the spec: the snapshot behaviour §4.4 claims — "replace
local view wholesale except for not-yet-acknowledged local writes which are
reapplied on top".  The local view is discarded entirely; only the snapshot
contents and the pending (unacknowledged) writes survive.  The code under
`src/` keeps no record of unacknowledged writes, so the pending writes are
an explicit parameter here. -/
def snapshotReplaceSpec (snap : Snapshot) (unacked : List (Coord × Color)) : CanvasFun :=
  fun k =>
    match snapLookup unacked k with
    | some c => some c
    | none => snapLookup snap k

/-! ### Transaction-verification polling (`verifyTransactionWithBackend`) -/

/-- The mutable state shared by the transaction-verification interval
callback in `verifyTransactionWithBackend`: the `isVerifiedRef` flag, the
liveness of the two intervals (`verificationIntervalRef`,
`timerIntervalRef`), and observability counters for the
confirmation-processing block — how many times the block that stops the
timers, records the confirmation time and starts wallet-balance polling
has run, and whether wallet-balance polling was started. -/
structure VerifyState where
  isVerified : Bool
  intervalActive : Bool
  timerActive : Bool
  processedCount : Nat
  balancePollingStarted : Bool
deriving DecidableEq, Repr

/-- The state of the verification machinery right after
`verifyTransactionWithBackend` resets it: flag cleared, both intervals
running, confirmation never processed. -/
def initVerifyState : VerifyState :=
  { isVerified := false
    intervalActive := true
    timerActive := true
    processedCount := 0
    balancePollingStarted := false }

/-- One continuation of the verification `setInterval` callback, the
synchronous block that runs after `await verifyTransaction(txId)`
resolves.  `obs = none` models a rejected request (caught by the
`catch`, which only logs); `obs = some v` models a response with
`result.verified = v`.  The callback first early-returns (clearing the
interval) when `isVerifiedRef.current` is already set; on a verified
response with the flag still clear it sets the flag, clears both
intervals, records the confirmation time and starts wallet-balance
polling — modelled by the `processedCount` increment and
`balancePollingStarted`. -/
def verificationPoll (st : VerifyState) (obs : Option Bool) : VerifyState :=
  if st.isVerified then
    { st with intervalActive := false }
  else
    match obs with
    | none => st
    | some false => st
    | some true =>
      { st with
          isVerified := true
          intervalActive := false
          timerActive := false
          processedCount := st.processedCount + 1
          balancePollingStarted := true }

/-- The verification state after a sequence of poll continuations has run,
in their (serialized) execution order. -/
def runVerificationPolls (st : VerifyState) (obs : List (Option Bool)) : VerifyState :=
  obs.foldl verificationPoll st

/-! ### Wallet-balance polling (`startWalletBalancePolling` / `checkBalance`) -/

/-- The mutable state of one `startWalletBalancePolling` run: the
`lastPolledBalance`, `pollCount` and `zeroBalanceCount` locals, the
UI-visible `remainingPixels`, and whether `walletBalanceIntervalRef` is
still live. -/
structure BalanceState where
  lastPolledBalance : Nat
  pollCount : Nat
  zeroBalanceCount : Nat
  remainingPixels : Nat
  intervalActive : Bool
deriving DecidableEq, Repr

/-- One run of `checkBalance`.  `connected` is `isConnected && address`;
`obs = none` models `getWalletBalance` rejecting (swallowed by the
`catch`, which logs and returns `false`); `obs = some b` models an
observed balance `b`.  `elapsedMs` is `Date.now() - pollingStartTime`.
The statements are translated in source order: the early return when not
connected, `pollCount++` before the awaited fetch, the unconditional
`setRemainingPixels(currentBalance)`, the `currentBalance >=
expectedBalance` stop, the `lastPolledBalance = currentBalance`
assignment, then the zero-balance special case (which reads
`lastPolledBalance` AFTER that assignment), and finally the
`maxPollingTime` (2 minutes) check. -/
def checkBalanceStep (expectedBalance : Nat) (connected : Bool) (st : BalanceState)
    (obs : Option Nat) (elapsedMs : Nat) : BalanceState :=
  if connected then
    let st := { st with pollCount := st.pollCount + 1 }
    match obs with
    | none => st
    | some currentBalance =>
      let st := { st with remainingPixels := currentBalance }
      if currentBalance ≥ expectedBalance then
        { st with intervalActive := false }
      else
        let st := { st with lastPolledBalance := currentBalance }
        if currentBalance = 0 ∧ st.lastPolledBalance > 0 then
          let st := { st with zeroBalanceCount := st.zeroBalanceCount + 1 }
          if st.zeroBalanceCount ≥ 3 ∧ st.pollCount ≥ 5 then
            { st with intervalActive := false }
          else if elapsedMs > 120000 then
            { st with intervalActive := false }
          else
            st
        else
          let st := { st with zeroBalanceCount := 0 }
          if elapsedMs > 120000 then
            { st with intervalActive := false }
          else
            st
  else
    st

/-- The balance-polling state after a sequence of `checkBalance` runs,
each paired with its observation and its elapsed time. -/
def runBalancePolls (expectedBalance : Nat) (connected : Bool) (st : BalanceState)
    (polls : List (Option Nat × Nat)) : BalanceState :=
  polls.foldl (fun s p => checkBalanceStep expectedBalance connected s p.1 p.2) st

/-- The 10-second safety `setTimeout` in `startWalletBalancePolling`: it
clears the wallet-balance interval unconditionally. -/
def balanceSafetyTimeout (st : BalanceState) : BalanceState :=
  { st with intervalActive := false }

/-! ### Unmount cleanup of timers (C8) -/

/-- The host timer table: the ids of the currently active
intervals/timeouts. -/
structure TimerSystem where
  active : List Nat
deriving DecidableEq, Repr

/-- `clearInterval(id)` / `clearTimeout(id)`: the timer with id `id` is no
longer active. -/
def clearTimer (sys : TimerSystem) (id : Nat) : TimerSystem :=
  { active := sys.active.filter (fun x => x ≠ id) }

/-- The guarded clear pattern `if (ref.current) clearInterval(ref.current)`
used throughout the cleanup effects (`null` refs are skipped). -/
def clearTimerRef (sys : TimerSystem) (r : Option Nat) : TimerSystem :=
  match r with
  | some id => clearTimer sys id
  | none => sys

/-- The interval refs held by `PixelCanvas`:
`verificationIntervalRef`, `timerIntervalRef`, `walletBalanceIntervalRef`. -/
structure CanvasTimers where
  verificationInterval : Option Nat
  timerInterval : Option Nat
  walletBalanceInterval : Option Nat
deriving DecidableEq, Repr

/-- The timer refs held by `useWebSocket`: `reconnectTimeoutRef` and
`pingIntervalRef`. -/
structure WsTimers where
  reconnectTimeout : Option Nat
  pingInterval : Option Nat
deriving DecidableEq, Repr

/-- The unmount cleanup effect of `PixelCanvas` ("Clean up intervals on
unmount"): clears the verification polling interval, the elapsed-time
ticker, and the wallet-balance polling interval, each guarded on the ref
being set. -/
def canvasUnmountCleanup (t : CanvasTimers) (sys : TimerSystem) : TimerSystem :=
  let sys := clearTimerRef sys t.verificationInterval
  let sys := clearTimerRef sys t.timerInterval
  clearTimerRef sys t.walletBalanceInterval

/-- The unmount cleanup of the `useWebSocket` effect: closes the socket
(not modelled here) and clears the reconnect timeout and the ping
interval. -/
def wsUnmountCleanup (w : WsTimers) (sys : TimerSystem) : TimerSystem :=
  let sys := clearTimerRef sys w.reconnectTimeout
  clearTimerRef sys w.pingInterval

/-! ### Wallet balance fetch (`getWalletBalance` in the `useApi` hook, C9) -/

/-- The outcome of the balance fetch in `getWalletBalance`: the `fetch`
promise rejects (network error), or a response arrives with its `ok` flag
and the JSON field `data.pixel_balance`. -/
inductive BalanceFetchOutcome where
  | networkError : BalanceFetchOutcome
  | response (ok : Bool) (pixel_balance : Int) : BalanceFetchOutcome
deriving DecidableEq, Repr

/-- `getWalletBalance` of the `useApi` hook: on a non-`ok` response it
throws inside the `try`, and the `catch` swallows every error and returns
`0`; on an `ok` response it returns `data.pixel_balance`. -/
def getWalletBalance : BalanceFetchOutcome → Int
  | .networkError => 0
  | .response ok bal => if ok then bal else 0

/-! ### The canvas click handler (`handlePixelClick`, C3 and C10) -/

/-- `GRID_SIZE`: the size of each grid cell in pixels. -/
def GRID_SIZE : Nat := 10

/-- The backend connection status state of `PixelCanvas`. -/
inductive BackendStatus where
  | connecting : BackendStatus
  | online : BackendStatus
  | offline : BackendStatus
deriving DecidableEq, Repr

/-- The outcome of the `placePixel` API call: a successful response
(optionally carrying `remaining_balance`), a rejection whose message
contains `"Insufficient pixel balance"`, or any other error. -/
inductive PlaceOutcome where
  | ok (remaining_balance : Option Int) : PlaceOutcome
  | insufficientBalance : PlaceOutcome
  | otherError : PlaceOutcome
deriving DecidableEq, Repr

/-- `selectedColor.startsWith('#') ? selectedColor : '#' + selectedColor`. -/
def formatColor (c : Color) : Color :=
  if c.startsWith "#" then c else "#" ++ c

/-- The component state and environment read by `handlePixelClick`. -/
structure ClickEnv where
  isMobile : Bool
  isConnected : Bool
  remainingPixels : Int
  localCanvasState : CanvasFun
  selectedColor : Color
  backendStatus : BackendStatus
  canvasWidth : Nat
  canvasHeight : Nat

/-- The observable effects of one `handlePixelClick` run: the resulting
local canvas state and remaining-pixel count, which modal/toast actions
were performed, and the write submitted to the backend (`none` when
`placePixel` was not called). -/
structure ClickResult where
  localCanvasState : CanvasFun
  remainingPixels : Int
  showMobileMessage : Bool
  toastWalletNotConnected : Bool
  showPurchaseModal : Bool
  submittedWrite : Option (Nat × Nat × Color)
  toastInsufficientBalance : Bool
  toastBackendError : Bool
  toastLocalMode : Bool
  toastLastPixel : Bool

/-- The no-effect result: state carried over unchanged, no toast, no
modal, no write submitted. -/
def noEffect (env : ClickEnv) : ClickResult :=
  { localCanvasState := env.localCanvasState
    remainingPixels := env.remainingPixels
    showMobileMessage := false
    toastWalletNotConnected := false
    showPurchaseModal := false
    submittedWrite := none
    toastInsufficientBalance := false
    toastBackendError := false
    toastLocalMode := false
    toastLastPixel := false }

/-- `handlePixelClick`, translated in source order: the mobile early
return, the wallet-connection early return (toast), the
`remainingPixels <= 0` early return (purchase modal), the snap-to-grid
coordinate computation and bounds check, the optimistic local update, and
then the backend interaction — on an online backend the write is
submitted and the response handled (`remaining_balance` taken from the
response when present, otherwise decremented locally; the
`"Insufficient pixel balance"` rejection toasts, zeroes the balance and
opens the purchase modal WITHOUT undoing the optimistic update; other
rejections only toast), on a non-online backend the pixel is kept locally
and the balance decremented.  The final `remainingPixels === 1` toast
reads the pre-click value captured by the closure. -/
def handlePixelClick (env : ClickEnv) (rawX rawY : Nat) (backend : PlaceOutcome) :
    ClickResult :=
  if env.isMobile then
    { noEffect env with showMobileMessage := true }
  else if !env.isConnected then
    { noEffect env with toastWalletNotConnected := true }
  else if env.remainingPixels ≤ 0 then
    { noEffect env with showPurchaseModal := true }
  else
    let x := rawX / GRID_SIZE * GRID_SIZE
    let y := rawY / GRID_SIZE * GRID_SIZE
    if x ≥ env.canvasWidth ∨ y ≥ env.canvasHeight then
      noEffect env
    else
      let newLocal := applyPixelUpdate env.localCanvasState x y env.selectedColor
      let lastPixel := decide (env.remainingPixels = 1)
      match env.backendStatus with
      | .online =>
        let write := some (x, y, formatColor env.selectedColor)
        match backend with
        | .ok (some b) =>
          { noEffect env with
              localCanvasState := newLocal
              remainingPixels := b
              submittedWrite := write
              toastLastPixel := lastPixel }
        | .ok none =>
          { noEffect env with
              localCanvasState := newLocal
              remainingPixels := env.remainingPixels - 1
              submittedWrite := write
              toastLastPixel := lastPixel }
        | .insufficientBalance =>
          { noEffect env with
              localCanvasState := newLocal
              remainingPixels := 0
              submittedWrite := write
              toastInsufficientBalance := true
              showPurchaseModal := true
              toastLastPixel := lastPixel }
        | .otherError =>
          { noEffect env with
              localCanvasState := newLocal
              submittedWrite := write
              toastBackendError := true
              toastLastPixel := lastPixel }
      | _ =>
        { noEffect env with
            localCanvasState := newLocal
            remainingPixels := env.remainingPixels - 1
            toastLocalMode := true
            toastLastPixel := lastPixel }

end KasPixel

namespace KasPixel

/-- C6: merging an inbound pixel-update delta into the client's canvas
state is idempotent — applying the same `{x, y, color}` delta twice yields
exactly the same canvas state as applying it once, so duplicate broadcast
delivery is tolerated. -/
theorem applyPixelUpdate_idempotent (s : CanvasFun) (x y : Nat) (c : Color) :
    applyPixelUpdate (applyPixelUpdate s x y c) x y c = applyPixelUpdate s x y c := by
  funext k
  by_cases h : k = (x, y) <;> simp [applyPixelUpdate, h]

/-- C5 counterexample: the deltas for cell `(0,0)` accepted in the
chronological order red-then-blue (blue is the chronologically-last
accepted write) can be delivered in the order blue-then-red — a
permutation of the accepted order — and then the merged canvas ends with
red at `(0,0)`, not with the chronologically-last color blue. -/
theorem applyDeltas_not_delivery_order_independent :
    (([⟨0, 0, "#0000FF"⟩, ⟨0, 0, "#FF0000"⟩] : List Delta).Perm
      [⟨0, 0, "#FF0000"⟩, ⟨0, 0, "#0000FF"⟩])
    ∧ applyDeltas emptyCanvas [⟨0, 0, "#0000FF"⟩, ⟨0, 0, "#FF0000"⟩] (0, 0) = some "#FF0000"
    ∧ lastWriteTo [⟨0, 0, "#FF0000"⟩, ⟨0, 0, "#0000FF"⟩] (0, 0) = some "#0000FF"
    ∧ ("#FF0000" : Color) ≠ "#0000FF" := by
  refine ⟨List.Perm.swap _ _ _, rfl, rfl, by decide⟩

/-- C5 (amended): the client's canvas state after merging a sequence of
pixel-update deltas holds, at each cell, the color of the last delta
DELIVERED for that cell (the previous state's color where no delta touched
the cell); this coincides with the chronologically-last accepted write
only when per-cell delivery order matches acceptance order. -/
theorem applyDeltas_last_delivered_wins (s : CanvasFun) (ds : List Delta) (k : Coord) :
    applyDeltas s ds k =
      match lastWriteTo ds k with
      | some c => some c
      | none => s k := by
  induction ds generalizing s with
  | nil => simp [applyDeltas, lastWriteTo]
  | cons d rest ih =>
    show applyDeltas (applyPixelUpdate s d.x d.y d.color) rest k = _
    rw [ih]
    rcases h : lastWriteTo rest k with _ | c
    · show applyPixelUpdate s d.x d.y d.color k = _
      show _ = (match lastWriteTo (d :: rest) k with
        | some c => some c
        | none => s k)
      unfold lastWriteTo
      rw [h]
      by_cases hk : k = (d.x, d.y)
      · simp [applyPixelUpdate, hk]
      · have hk' : ¬((d.x, d.y) = k) := fun hh => hk hh.symm
        simp [applyPixelUpdate, hk, hk']
    · show some c = (match lastWriteTo (d :: rest) k with
        | some c => some c
        | none => s k)
      unfold lastWriteTo
      rw [h]

/-- C4 counterexample: the client holds `(1,1) ↦ "#FF0000"` locally (with
no unacknowledged local write pending), receives a snapshot that contains
only `(2,2) ↦ "#0000FF"`, and after the merge it still holds
`(1,1) ↦ "#FF0000"` even though `(1,1)` is absent from the snapshot —
whereas the claimed wholesale replacement (with an empty set of
unacknowledged writes) would discard it. -/
theorem mergeCanvasState_not_wholesale_replace :
    mergeCanvasState (fun k => if k = (1, 1) then some "#FF0000" else none)
        [((2, 2), "#0000FF")] (1, 1) = some "#FF0000"
    ∧ snapLookup [((2, 2), "#0000FF")] (1, 1) = none
    ∧ snapshotReplaceSpec [((2, 2), "#0000FF")] [] (1, 1) = none := by
  refine ⟨rfl, rfl, rfl⟩

/-- C4 (amended): on snapshot receipt the client merges the snapshot over
its existing local view cell by cell — every cell present in the snapshot
takes the snapshot's color, and every locally-held cell absent from the
snapshot is retained unchanged, not discarded (an empty snapshot leaves
the local view untouched); the code keeps no record of unacknowledged
local writes to reapply. -/
theorem mergeCanvasState_characterization (localState : CanvasFun) (snap : Snapshot)
    (k : Coord) :
    (snapLookup snap k = none → mergeCanvasState localState snap k = localState k)
    ∧ (∀ c, snapLookup snap k = some c → mergeCanvasState localState snap k = some c) := by
  constructor
  · intro h
    by_cases he : snap.isEmpty
    · simp [mergeCanvasState, he]
    · have he' : snap.isEmpty = false := by simpa using he
      simp [mergeCanvasState, he', h]
  · intro c h
    have he : snap.isEmpty = false := by
      cases snap with
      | nil => simp [snapLookup] at h
      | cons p rest => rfl
    simp [mergeCanvasState, he, h]

/-- Witness for C4's amended theorem at a concrete input: the snapshot
`[(2,2) ↦ "#0000FF"]` lacks `(1,1)`, and merging leaves the local color of
`(1,1)` in place while `(2,2)` takes the snapshot color. -/
theorem mergeCanvasState_characterization_witness :
    snapLookup [((2, 2), "#0000FF")] (1, 1) = none
    ∧ snapLookup [((2, 2), "#0000FF")] (2, 2) = some "#0000FF"
    ∧ mergeCanvasState (fun k => if k = (1, 1) then some "#FF0000" else none)
        [((2, 2), "#0000FF")] (1, 1) = some "#FF0000"
    ∧ mergeCanvasState (fun k => if k = (1, 1) then some "#FF0000" else none)
        [((2, 2), "#0000FF")] (2, 2) = some "#0000FF" := by
  refine ⟨rfl, rfl, ?_, ?_⟩
  · exact (mergeCanvasState_characterization
      (fun k => if k = (1, 1) then some "#FF0000" else none) [((2, 2), "#0000FF")] (1, 1)).1 rfl
  · exact (mergeCanvasState_characterization
      (fun k => if k = (1, 1) then some "#FF0000" else none) [((2, 2), "#0000FF")] (2, 2)).2
      "#0000FF" rfl

/-- One verification-poll continuation preserves the loop invariant: the
confirmation block has never run while the verified flag is clear, and it
has run at most once overall. -/
lemma verificationPoll_invariant (st : VerifyState) (obs : Option Bool)
    (h1 : st.isVerified = false → st.processedCount = 0)
    (h2 : st.processedCount ≤ 1) :
    ((verificationPoll st obs).isVerified = false →
      (verificationPoll st obs).processedCount = 0)
    ∧ (verificationPoll st obs).processedCount ≤ 1 := by
  unfold verificationPoll
  by_cases hv : st.isVerified
  · simp [hv, h2]
  · have h0 : st.processedCount = 0 := h1 (by simpa using hv)
    cases obs with
    | none => simp [hv, h1, h2]
    | some v =>
      cases v with
      | false => simp [hv, h1, h2]
      | true => simp [hv, h0]

/-- The loop invariant holds after any sequence of verification-poll
continuations. -/
lemma runVerificationPolls_invariant (obs : List (Option Bool)) (st : VerifyState)
    (h1 : st.isVerified = false → st.processedCount = 0)
    (h2 : st.processedCount ≤ 1) :
    ((runVerificationPolls st obs).isVerified = false →
      (runVerificationPolls st obs).processedCount = 0)
    ∧ (runVerificationPolls st obs).processedCount ≤ 1 := by
  induction obs generalizing st with
  | nil => exact ⟨h1, h2⟩
  | cons o rest ih =>
    have step := verificationPoll_invariant st o h1 h2
    exact ih (verificationPoll st o) step.1 step.2

/-- C1: no matter how many transaction-verification polling cycles observe
the transaction as confirmed (and regardless of interleaved errors or
not-yet-confirmed responses), the confirmation-processing block — which
stops the verification interval and the elapsed-time timer, records the
confirmation time, and starts wallet-balance polling — runs at most once:
each continuation checks the `isVerifiedRef` flag and sets it before any
further processing. -/
theorem verification_confirmation_processed_at_most_once (obs : List (Option Bool)) :
    (runVerificationPolls initVerifyState obs).processedCount ≤ 1 :=
  (runVerificationPolls_invariant obs initVerifyState (fun _ => rfl) (by simp [initVerifyState])).2

/-- C7: a single failed poll is swallowed in both loops — a verification
poll whose request rejects leaves the verification state (including the
liveness of its interval) exactly unchanged, and a `checkBalance` run
whose balance fetch rejects leaves the balance-polling state unchanged
except for the `pollCount` increment taken before the fetch; neither
terminates its loop. -/
theorem failed_poll_does_not_stop_loops (st : VerifyState) (bst : BalanceState)
    (expectedBalance elapsedMs : Nat) (h : st.isVerified = false) :
    verificationPoll st none = st
    ∧ checkBalanceStep expectedBalance true bst none elapsedMs
        = { bst with pollCount := bst.pollCount + 1 } := by
  constructor
  · simp [verificationPoll, h]
  · rfl

/-- Witness for C7 at a concrete input: a failed poll right after starting
verification, and a failed balance fetch in a live balance-polling state. -/
theorem failed_poll_does_not_stop_loops_witness :
    initVerifyState.isVerified = false
    ∧ verificationPoll initVerifyState none = initVerifyState
    ∧ checkBalanceStep 15 true ⟨5, 0, 0, 5, true⟩ none 500 = ⟨5, 1, 0, 5, true⟩ :=
  ⟨rfl,
   (failed_poll_does_not_stop_loops initVerifyState ⟨5, 0, 0, 5, true⟩ 15 500 rfl).1,
   (failed_poll_does_not_stop_loops initVerifyState ⟨5, 0, 0, 5, true⟩ 15 500 rfl).2⟩

/-- C2 (code bug): the anomalous-zero stop condition can never fire.  The
general conjunct shows every `checkBalance` run either resets
`zeroBalanceCount` to 0 or leaves it unchanged — because
`lastPolledBalance = currentBalance` is assigned BEFORE the comparison
`currentBalance === 0 && lastPolledBalance > 0`, the comparison is
`0 > 0` and never true.  The concrete conjunct runs the loop on a balance
observed at 5 and then dropping to 0 for five consecutive polls (expected
balance 15, well inside the time budget): polling is still active and
`zeroBalanceCount` is still 0, where the claim says the third consecutive
anomalous poll stops the loop. -/
theorem balance_anomaly_stop_never_fires :
    (∀ (expected : Nat) (connected : Bool) (st : BalanceState) (obs : Option Nat)
        (elapsed : Nat),
      (checkBalanceStep expected connected st obs elapsed).zeroBalanceCount = 0
      ∨ (checkBalanceStep expected connected st obs elapsed).zeroBalanceCount
          = st.zeroBalanceCount)
    ∧ runBalancePolls 15 true ⟨5, 0, 0, 5, true⟩
        [(some 5, 100), (some 0, 600), (some 0, 1100), (some 0, 1600),
         (some 0, 2100), (some 0, 2600)]
      = ⟨0, 6, 0, 0, true⟩ := by
  refine ⟨?_, rfl⟩
  intro expected connected st obs elapsed
  cases connected
  · right; rfl
  · cases obs with
    | none => right; rfl
    | some b =>
      by_cases hb : b ≥ expected
      · right; simp [checkBalanceStep, hb]
      · left
        have hcond : ¬(b = 0 ∧ b > 0) := by omega
        simp only [checkBalanceStep, if_true, hb, if_false, hcond]
        split <;> rfl

/-- C3 counterexample: the local cell `(0,0)` holds the authoritative
color `"#00FF00"`; a click paints it `"#FF0000"` optimistically and the
backend denies the write for insufficient credit — afterwards the local
cell still holds `"#FF0000"`, not its last known authoritative value
`"#00FF00"`: the optimistic update is never rolled back. -/
theorem denied_write_not_rolled_back :
    (handlePixelClick
        ⟨false, true, 1, (fun k => if k = (0, 0) then some "#00FF00" else none),
          "#FF0000", .online, 1000, 1000⟩
        0 0 .insufficientBalance).localCanvasState (0, 0) = some "#FF0000"
    ∧ ((fun k => if k = (0, 0) then some "#00FF00" else none : CanvasFun) (0, 0)
        = some "#00FF00")
    ∧ some ("#FF0000" : Color) ≠ some ("#00FF00" : Color) :=
  ⟨rfl, rfl, by decide⟩

/-- C3 (amended): when a pixel write submitted to the backend is denied
for insufficient credit, the client surfaces the out-of-credit condition —
a destructive "Out of pixels" toast, the remaining balance set to 0 and
the purchase modal opened — but it does NOT roll back the
optimistically-applied local cell: the local canvas state keeps the
clicked color on top of the previous state. -/
theorem denied_write_surfaced_without_rollback (env : ClickEnv) (rawX rawY : Nat)
    (hm : env.isMobile = false) (hc : env.isConnected = true)
    (hr : 0 < env.remainingPixels)
    (hx : rawX / GRID_SIZE * GRID_SIZE < env.canvasWidth)
    (hy : rawY / GRID_SIZE * GRID_SIZE < env.canvasHeight)
    (hb : env.backendStatus = .online) :
    (handlePixelClick env rawX rawY .insufficientBalance).showPurchaseModal = true
    ∧ (handlePixelClick env rawX rawY .insufficientBalance).toastInsufficientBalance = true
    ∧ (handlePixelClick env rawX rawY .insufficientBalance).remainingPixels = 0
    ∧ (handlePixelClick env rawX rawY .insufficientBalance).localCanvasState
        = applyPixelUpdate env.localCanvasState (rawX / GRID_SIZE * GRID_SIZE)
            (rawY / GRID_SIZE * GRID_SIZE) env.selectedColor := by
  have hr' : ¬env.remainingPixels ≤ 0 := by omega
  have hbound : ¬(rawX / GRID_SIZE * GRID_SIZE ≥ env.canvasWidth
      ∨ rawY / GRID_SIZE * GRID_SIZE ≥ env.canvasHeight) := by omega
  simp [handlePixelClick, hm, hc, hr', hbound, hb]

/-- Witness for C3's amended theorem at the concrete denied click of the
counterexample scenario. -/
theorem denied_write_surfaced_without_rollback_witness :
    (handlePixelClick
        ⟨false, true, 1, (fun k => if k = (0, 0) then some "#00FF00" else none),
          "#FF0000", .online, 1000, 1000⟩
        0 0 .insufficientBalance).showPurchaseModal = true
    ∧ (handlePixelClick
        ⟨false, true, 1, (fun k => if k = (0, 0) then some "#00FF00" else none),
          "#FF0000", .online, 1000, 1000⟩
        0 0 .insufficientBalance).remainingPixels = 0 :=
  ⟨(denied_write_surfaced_without_rollback
      ⟨false, true, 1, (fun k => if k = (0, 0) then some "#00FF00" else none),
        "#FF0000", .online, 1000, 1000⟩
      0 0 rfl rfl (by decide) (by decide) (by decide) rfl).1,
   (denied_write_surfaced_without_rollback
      ⟨false, true, 1, (fun k => if k = (0, 0) then some "#00FF00" else none),
        "#FF0000", .online, 1000, 1000⟩
      0 0 rfl rfl (by decide) (by decide) (by decide) rfl).2.2.1⟩

/-- C10 counterexample: on a mobile client with a zero pixel balance and a
connected wallet, a canvas click shows the mobile message and returns —
neither the purchase modal nor the connect-wallet toast is shown, against
the claim that one of them is shown whenever the balance is ≤ 0. -/
theorem zero_balance_mobile_click_shows_no_modal :
    (handlePixelClick ⟨true, true, 0, emptyCanvas, "#FF0000", .online, 1000, 1000⟩
        0 0 (.ok none)).showPurchaseModal = false
    ∧ (handlePixelClick ⟨true, true, 0, emptyCanvas, "#FF0000", .online, 1000, 1000⟩
        0 0 (.ok none)).toastWalletNotConnected = false
    ∧ (handlePixelClick ⟨true, true, 0, emptyCanvas, "#FF0000", .online, 1000, 1000⟩
        0 0 (.ok none)).showMobileMessage = true
    ∧ ((⟨true, true, 0, emptyCanvas, "#FF0000", .online, 1000, 1000⟩ :
        ClickEnv).remainingPixels ≤ 0) :=
  ⟨rfl, rfl, rfl, by decide⟩

/-- C10 (amended): on a non-mobile client, whenever the remaining pixel
balance is ≤ 0 or the wallet is not connected, a canvas click performs no
optimistic update, submits no write, and leaves local canvas state and
balance unchanged; a connected client is shown the purchase modal, a
disconnected one the connect-wallet toast.  (On mobile, the click likewise
performs no update and no write, but shows the mobile message instead.) -/
theorem click_rejected_without_credit_or_connection (env : ClickEnv) (rawX rawY : Nat)
    (backend : PlaceOutcome) (hm : env.isMobile = false)
    (h : env.remainingPixels ≤ 0 ∨ env.isConnected = false) :
    (handlePixelClick env rawX rawY backend).localCanvasState = env.localCanvasState
    ∧ (handlePixelClick env rawX rawY backend).submittedWrite = none
    ∧ (handlePixelClick env rawX rawY backend).remainingPixels = env.remainingPixels
    ∧ (if env.isConnected
        then (handlePixelClick env rawX rawY backend).showPurchaseModal = true
        else (handlePixelClick env rawX rawY backend).toastWalletNotConnected = true) := by
  cases hc : env.isConnected with
  | false => simp [handlePixelClick, hm, hc, noEffect]
  | true =>
    have hr : env.remainingPixels ≤ 0 := by
      rcases h with h | h
      · exact h
      · rw [hc] at h; cases h
    simp [handlePixelClick, hm, hc, hr, noEffect]

/-- Witness for C10's amended theorem: a connected desktop client with
zero balance clicking the canvas gets the purchase modal and no state
change. -/
theorem click_rejected_without_credit_witness :
    (handlePixelClick ⟨false, true, 0, emptyCanvas, "#FF0000", .online, 1000, 1000⟩
        5 5 (.ok none)).submittedWrite = none
    ∧ (handlePixelClick ⟨false, true, 0, emptyCanvas, "#FF0000", .online, 1000, 1000⟩
        5 5 (.ok none)).showPurchaseModal = true := by
  have h := click_rejected_without_credit_or_connection
    ⟨false, true, 0, emptyCanvas, "#FF0000", .online, 1000, 1000⟩ 5 5 (.ok none)
    rfl (Or.inl (by decide))
  exact ⟨h.2.1, by simpa using h.2.2.2⟩

/-- A cleared timer id is no longer active. -/
lemma not_mem_clearTimer_self (sys : TimerSystem) (id : Nat) :
    id ∉ (clearTimer sys id).active := by
  simp [clearTimer, List.mem_filter]

/-- Clearing a timer never reactivates another inactive timer. -/
lemma not_mem_clearTimer_of (sys : TimerSystem) (a b : Nat) (h : a ∉ sys.active) :
    a ∉ (clearTimer sys b).active := by
  simp only [clearTimer, List.mem_filter]
  intro hmem
  exact h hmem.1

/-- Clearing through a ref never reactivates an inactive timer. -/
lemma not_mem_clearTimerRef_of (sys : TimerSystem) (r : Option Nat) (a : Nat)
    (h : a ∉ sys.active) : a ∉ (clearTimerRef sys r).active := by
  cases r with
  | none => exact h
  | some b => exact not_mem_clearTimer_of sys a b h

/-- Clearing through a ref holding `a` deactivates `a`. -/
lemma not_mem_clearTimerRef_self (sys : TimerSystem) (a : Nat) :
    a ∉ (clearTimerRef sys (some a)).active :=
  not_mem_clearTimer_self sys a

/-- C8: after the unmount cleanups of `PixelCanvas` and `useWebSocket`
run, every timer held by any of the five refs — the
transaction-verification polling interval, the elapsed-time ticker, the
wallet-balance polling interval, the WebSocket ping interval and the
reconnect timer — is inactive: no polling loop of the component remains
active after teardown. -/
theorem unmount_clears_all_timers (t : CanvasTimers) (w : WsTimers) (sys : TimerSystem)
    (id : Nat)
    (h : t.verificationInterval = some id ∨ t.timerInterval = some id
      ∨ t.walletBalanceInterval = some id ∨ w.reconnectTimeout = some id
      ∨ w.pingInterval = some id) :
    id ∉ (wsUnmountCleanup w (canvasUnmountCleanup t sys)).active := by
  unfold wsUnmountCleanup canvasUnmountCleanup
  rcases h with h | h | h | h | h
  · rw [h]
    exact not_mem_clearTimerRef_of _ _ _ (not_mem_clearTimerRef_of _ _ _
      (not_mem_clearTimerRef_of _ _ _ (not_mem_clearTimerRef_of _ _ _
        (not_mem_clearTimerRef_self _ _))))
  · rw [h]
    exact not_mem_clearTimerRef_of _ _ _ (not_mem_clearTimerRef_of _ _ _
      (not_mem_clearTimerRef_of _ _ _ (not_mem_clearTimerRef_self _ _)))
  · rw [h]
    exact not_mem_clearTimerRef_of _ _ _ (not_mem_clearTimerRef_of _ _ _
      (not_mem_clearTimerRef_self _ _))
  · rw [h]
    exact not_mem_clearTimerRef_of _ _ _ (not_mem_clearTimerRef_self _ _)
  · rw [h]
    exact not_mem_clearTimerRef_self _ _

/-- Witness for C8: a concrete teardown with all five refs set and all
five timers active — afterwards the verification interval's id (and,
spot-checked at the other extreme, the ping interval's id) is inactive. -/
theorem unmount_clears_all_timers_witness :
    ((⟨some 1, some 2, some 3⟩ : CanvasTimers).verificationInterval = some 1
      ∨ (⟨some 1, some 2, some 3⟩ : CanvasTimers).timerInterval = some 1
      ∨ (⟨some 1, some 2, some 3⟩ : CanvasTimers).walletBalanceInterval = some 1
      ∨ (⟨some 4, some 5⟩ : WsTimers).reconnectTimeout = some 1
      ∨ (⟨some 4, some 5⟩ : WsTimers).pingInterval = some 1)
    ∧ 1 ∉ (wsUnmountCleanup ⟨some 4, some 5⟩
        (canvasUnmountCleanup ⟨some 1, some 2, some 3⟩ ⟨[1, 2, 3, 4, 5]⟩)).active
    ∧ 5 ∉ (wsUnmountCleanup ⟨some 4, some 5⟩
        (canvasUnmountCleanup ⟨some 1, some 2, some 3⟩ ⟨[1, 2, 3, 4, 5]⟩)).active :=
  ⟨Or.inl rfl,
   unmount_clears_all_timers ⟨some 1, some 2, some 3⟩ ⟨some 4, some 5⟩
     ⟨[1, 2, 3, 4, 5]⟩ 1 (Or.inl rfl),
   unmount_clears_all_timers ⟨some 1, some 2, some 3⟩ ⟨some 4, some 5⟩
     ⟨[1, 2, 3, 4, 5]⟩ 5 (Or.inr (Or.inr (Or.inr (Or.inr rfl))))⟩

/-- C9: for every wallet address, a failed balance query — whether the
request rejects or the response is non-OK — makes `getWalletBalance`
return `0` instead of propagating the failure, so its result on a failure
is indistinguishable from a true zero balance. -/
theorem getWalletBalance_failure_returns_zero (bal : Int) :
    getWalletBalance .networkError = 0
    ∧ getWalletBalance (.response false bal) = 0
    ∧ getWalletBalance (.response true 0) = 0
    ∧ getWalletBalance .networkError = getWalletBalance (.response true 0) :=
  ⟨rfl, rfl, rfl, rfl⟩

end KasPixel
